import Mathlib

/-!
Verification of the OpenAlchemy package-registry write workflow and metadata
store, shallowly embedded from the repository sources:
`api/library/specs/versions/__init__.py` (the `put`, `list_` handlers) and
`database/open_alchemy/package_database/dynamodb.py` (the `Database` facade).
The backing `models.Spec` / `models.Credentials` layer is external to the
given sources; where a claim depends on it, the corresponding definition is
modelled from the specification and marked as such in its doc comment.
-/

namespace OpenAlchemy

/-! ## Data model -/

/-- One stored spec-version record in the metadata store:
key (sub, id_, version) plus the attributes written by
`Database.create_update_spec`, and the write timestamp used for the
most-recent-first ordering. -/
structure SpecRecord where
  sub : String
  id_ : String
  version : String
  title : Option String
  description : Option String
  model_count : Nat
  updated_at : Nat
deriving DecidableEq

/-- One stored credential record, per the data model:
key (sub, id_), attributes public_key, secret_key_hash, salt. -/
structure CredRecord where
  sub : String
  id_ : String
  public_key : String
  secret_key_hash : String
  salt : String
deriving DecidableEq

/-- The metadata database state: all spec-version records and all
credential records. -/
structure DbState where
  specs : List SpecRecord
  credentials : List CredRecord
deriving DecidableEq

/-- `types.TCheckWouldExceedFreeTierReturn`: result flag plus optional
reason, exactly as constructed by `Database.check_would_exceed_free_tier`. -/
structure TCheckWouldExceedFreeTierReturn where
  result : Bool
  reason : Option String
deriving DecidableEq

/-- Process-wide configuration (`config.get()`), read at decision time. -/
structure Config where
  free_tier_model_count : Nat
deriving DecidableEq

/-- Authentication info returned by `get_user`
(`types.CredentialsAuthInfo`). -/
structure CredentialsAuthInfo where
  sub : String
  secret_key_hash : String
  salt : String
deriving DecidableEq

/-- `database.exceptions`: `NotFoundError` and `StorageError` are distinct
failure modes, distinguishable by callers. -/
inductive DbError where
  | NotFoundError (msg : String)
  | StorageError (msg : String)
deriving DecidableEq

/-! ## Metadata store: modelled backing layer -/

/-- The records stored for one (customer, spec id): the filter underlying
`models.Spec.list_versions`. -/
def specVersionsFor (st : DbState) (sub id_ : String) : List SpecRecord :=
  st.specs.filter (fun r => r.sub == sub && r.id_ == id_)

/-- Most-recent-first ordering on records: `a` is at least as recent as `b`. -/
def moreRecent (a b : SpecRecord) : Prop :=
  b.updated_at ≤ a.updated_at

instance : DecidableRel moreRecent :=
  fun a b => Nat.decLe b.updated_at a.updated_at

instance : IsTotal SpecRecord moreRecent :=
  ⟨fun a b => Or.symm (Nat.le_total a.updated_at b.updated_at)⟩

instance : IsTrans SpecRecord moreRecent :=
  ⟨fun _ _ _ h1 h2 => Nat.le_trans h2 h1⟩

/-- Modelled from the spec: `models.Spec.list_versions` (not under the given
sources) returns all stored versions for the (customer, spec id),
most-recent-first by update timestamp. -/
def Spec.list_versions (st : DbState) (sub id_ : String) : List SpecRecord :=
  (specVersionsFor st sub id_).insertionSort moreRecent

/-- Modelled from the spec: `models.Spec.count_customer_models` (not under
the given sources) sums model_count across the customer's stored specs
(counting policy per the spec's Metadata Store contract). -/
def Spec.count_customer_models (st : DbState) (sub : String) : Nat :=
  ((st.specs.filter (fun r => r.sub == sub)).map (fun r => r.model_count)).sum

/-- Modelled from the spec: `models.Spec.get_latest_version` (not under the
given sources) resolves the version with the most recent update timestamp,
raising NotFoundError if the spec id has no versions. -/
def Spec.get_latest_version (st : DbState) (sub id_ : String) :
    Except DbError String :=
  match Spec.list_versions st sub id_ with
  | [] => Except.error (DbError.NotFoundError (("spec not found: ") ++ id_))
  | r :: _ => Except.ok r.version

/-- Modelled from the spec: `models.Credentials.get_item` (not under the
given sources) returns the stored record for (sub, id_) or None. -/
def Credentials.get_item (st : DbState) (sub id_ : String) :
    Option CredRecord :=
  st.credentials.find? (fun r => r.sub == sub && r.id_ == id_)

/-- Modelled from the spec: `models.Credentials.get_user` (not under the
given sources) resolves a public key to the owning customer's auth info,
or None when no credential has that public key. -/
def Credentials.get_user (st : DbState) (public_key : String) :
    Option CredentialsAuthInfo :=
  (st.credentials.find? (fun r => r.public_key == public_key)).map
    (fun r =>
      { sub := r.sub, secret_key_hash := r.secret_key_hash, salt := r.salt })

/-! ## `Database` facade (dynamodb.py) -/

/-- `Database.count_customer_models`: delegates to the model layer. -/
def Database.count_customer_models (st : DbState) (sub : String) : Nat :=
  Spec.count_customer_models st sub

/-- `Database.check_would_exceed_free_tier`: reads the current count, and if
`current_count + model_count > config.get().free_tier_model_count` returns
result True with the interpolated reason string, else result False with
reason None. -/
def Database.check_would_exceed_free_tier (cfg : Config) (st : DbState)
    (sub : String) (model_count : Nat) : TCheckWouldExceedFreeTierReturn :=
  let current_count := Database.count_customer_models st sub
  if current_count + model_count > cfg.free_tier_model_count then
    { result := true
      reason := some ((("with this spec the maximum number of ") ++
        toString cfg.free_tier_model_count ++
        (" models for the free tier would be exceeded, ") ++
        ("current models count: ") ++ toString current_count ++
        (", models in this spec: ") ++ toString model_count)) }
  else
    { result := false, reason := none }

/-- `Database.create_update_spec`: idempotent upsert keyed by
(sub, id_, version); the new record carries the write timestamp `now`. -/
def Database.create_update_spec (st : DbState) (sub id_ version : String)
    (model_count : Nat) (title description : Option String) (now : Nat) :
    DbState :=
  { st with
    specs :=
      { sub := sub, id_ := id_, version := version, title := title
        description := description, model_count := model_count
        updated_at := now } ::
      st.specs.filter
        (fun r => !(r.sub == sub && r.id_ == id_ && r.version == version)) }

/-- `Database.list_spec_versions`: lists the versions via the model layer and
raises NotFoundError when the result is empty. -/
def Database.list_spec_versions (st : DbState) (sub id_ : String) :
    Except DbError (List SpecRecord) :=
  let spec_infos := Spec.list_versions st sub id_
  if spec_infos.isEmpty then
    Except.error (DbError.NotFoundError (("could not find spec id ") ++ id_))
  else
    Except.ok spec_infos

/-- `Database.get_latest_spec_version`: delegates to the model layer;
raises NotFoundError if the spec is not found. -/
def Database.get_latest_spec_version (st : DbState) (sub id_ : String) :
    Except DbError String :=
  Spec.get_latest_version st sub id_

/-- `Database.get_credentials`: returns the stored record or None. -/
def Database.get_credentials (st : DbState) (sub id_ : String) :
    Option CredRecord :=
  Credentials.get_item st sub id_

/-- `Database.get_user`: returns auth info for the public key or None. -/
def Database.get_user (st : DbState) (public_key : String) :
    Option CredentialsAuthInfo :=
  Credentials.get_user st public_key

/-! ## Blob store (storage facade, external collaborator) -/

/-- The blob store: a key-versioned map from (user, spec_id, version) to the
stored document body; writes are upserts, lookup returns the last write. -/
structure BlobStore where
  objects : List ((String × String × String) × String)
deriving DecidableEq

/-- `storage.create_update_spec`: upsert the document body under the key. -/
def BlobStore.create_update_spec (bs : BlobStore)
    (key : String × String × String) (spec_str : String) : BlobStore :=
  { objects := (key, spec_str) :: bs.objects }

/-- Lookup of the stored body for a key (last write wins). -/
def BlobStore.get_spec (bs : BlobStore) (key : String × String × String) :
    Option String :=
  (bs.objects.find? (fun kv => kv.1 == key)).map (fun kv => kv.2)

/-! ## Write orchestrator (`put` in versions/__init__.py) -/

/-- `server.Response(data, status, mimetype)`. -/
structure Response where
  data : Option String
  status : Nat
  mimetype : Option String
deriving DecidableEq

/-- The output of `spec.process` (`SpecInfo`): derived version, model count,
title, description, and the canonicalized document body `spec_str`. -/
structure SpecInfo where
  version : String
  model_count : Nat
  title : Option String
  description : Option String
  spec_str : String
deriving DecidableEq

/-- An exception that escapes `put` uncaught: `bytearray.decode` raising
UnicodeDecodeError matches none of the handled exception classes
(LoadSpecError, StorageError, DatabaseError). -/
inductive PyError where
  | UnicodeDecodeError (msg : String)
deriving DecidableEq

/-- The combined system state a `put` request acts on: the blob store and the
metadata database. -/
structure SysState where
  blob : BlobStore
  db : DbState
deriving DecidableEq

/-- Observable store mutations, in the order `put` performs them. -/
inductive StoreEvent where
  | blobWrite (user spec_id version spec_str : String)
  | metaWrite (user spec_id version : String) (model_count : Nat)
deriving DecidableEq

/-- Environment of one `put` request: the outcome of decoding the raw body,
the outcome of `spec.process` on the decoded body, whether each external
store write succeeds, and the write timestamp. -/
structure PutEnv where
  decodeResult : Except String String
  processResult : Except String SpecInfo
  blobOk : Bool
  dbOk : Bool
  now : Nat

/-- The `put` handler: decode the body, run the spec processor (LoadSpecError
caught as 400), compare the requested version against the derived one (400 on
mismatch), run the free-tier check (402 when exceeded), then write the
canonicalized body to the blob store (StorageError caught as 500) and the
metadata to the database (DatabaseError caught as 500), returning 204.
Returns the response (or an uncaught exception), the final state, and the
trace of store writes in order. -/
def put (cfg : Config) (env : PutEnv) (spec_id version user : String)
    (st : SysState) : Except PyError Response × SysState × List StoreEvent :=
  match env.decodeResult with
  | Except.error msg => (Except.error (PyError.UnicodeDecodeError msg), st, [])
  | Except.ok _spec_str =>
    match env.processResult with
    | Except.error exc =>
        (Except.ok
          { data := some (("the spec is not valid, ") ++ exc)
            status := 400, mimetype := some ("text/plain") }, st, [])
    | Except.ok spec_info =>
      if version ≠ spec_info.version then
        (Except.ok
          { data := some (("the requested version ") ++ version ++
              (" does not match the version of the spec ") ++
              spec_info.version)
            status := 400, mimetype := some ("text/plain") }, st, [])
      else
        let free_tier_check :=
          Database.check_would_exceed_free_tier cfg st.db user
            spec_info.model_count
        if free_tier_check.result then
          (Except.ok
            { data := free_tier_check.reason
              status := 402, mimetype := some ("text/plain") }, st, [])
        else
          if env.blobOk then
            let st1 : SysState :=
              { st with
                blob := st.blob.create_update_spec
                  (user, spec_id, spec_info.version) spec_info.spec_str }
            if env.dbOk then
              let st2 : SysState :=
                { st1 with
                  db := Database.create_update_spec st1.db user spec_id
                    spec_info.version spec_info.model_count spec_info.title
                    spec_info.description env.now }
              (Except.ok { data := none, status := 204, mimetype := none },
                st2,
                [StoreEvent.blobWrite user spec_id spec_info.version
                  spec_info.spec_str,
                 StoreEvent.metaWrite user spec_id spec_info.version
                  spec_info.model_count])
            else
              (Except.ok
                { data :=
                    some ("something went wrong whilst updating the database")
                  status := 500, mimetype := some ("text/plain") },
                st1,
                [StoreEvent.blobWrite user spec_id spec_info.version
                  spec_info.spec_str])
          else
            (Except.ok
              { data := some ("something went wrong whilst storing the spec")
                status := 500, mimetype := some ("text/plain") }, st, [])

/-! ## The `list_` handler (versions endpoint) -/

/-- Failure modes of the storage facade as seen by the `list_` handler:
`ObjectNotFoundError` is caught before the general `StorageError`. -/
inductive StorageExc where
  | ObjectNotFoundError (msg : String)
  | StorageFault (msg : String)
deriving DecidableEq

/-- A stand-in for `json.dumps` on the version list returned by the storage
facade; its exact text is irrelevant to the claims. -/
def jsonDumps (versions : List String) : String :=
  ("[") ++ String.intercalate (",") (versions.map (fun v => ("\"") ++ v ++ ("\""))) ++ ("]")

/-- The `list_` handler: returns 200 with the JSON body on success, 404 when
the storage facade reports the spec id absent, 500 on a storage fault. -/
def list_ (spec_id : String)
    (versionsResult : Except StorageExc (List String)) : Response :=
  match versionsResult with
  | Except.ok versions =>
      { data := some (jsonDumps versions)
        status := 200, mimetype := some ("application/json") }
  | Except.error (StorageExc.ObjectNotFoundError _) =>
      { data := some (("could not find spec with id ") ++ spec_id)
        status := 404, mimetype := some ("text/plain") }
  | Except.error (StorageExc.StorageFault _) =>
      { data := some ("something went wrong whilst reading from the storage")
        status := 500, mimetype := some ("text/plain") }

/-! ## Concrete instances used in witnesses and counterexamples -/

/-- A free-tier ceiling of 5 models. -/
def cfgW : Config := { free_tier_model_count := 5 }

/-- A stored spec-version record: version 1 of spec s1 with 3 models. -/
def specRecW1 : SpecRecord :=
  { sub := "alice", id_ := "s1", version := "1", title := none
    description := none, model_count := 3, updated_at := 1 }

/-- A later record: version 2 of spec s1, written at a later time. -/
def specRecW2 : SpecRecord :=
  { sub := "alice", id_ := "s1", version := "2", title := none
    description := none, model_count := 2, updated_at := 2 }

/-- A metadata store with no records at all. -/
def dbEmpty : DbState := { specs := [], credentials := [] }

/-- A metadata store where alice has one spec version with 3 models. -/
def dbW : DbState := { specs := [specRecW1], credentials := [] }

/-- A metadata store with two versions of s1, stored older-first. -/
def dbW2 : DbState := { specs := [specRecW1, specRecW2], credentials := [] }

/-- An empty blob store. -/
def blobEmpty : BlobStore := { objects := [] }

/-- System state: empty blob store, empty metadata store. -/
def sysEmpty : SysState := { blob := blobEmpty, db := dbEmpty }

/-- System state: empty blob store, alice already has 3 models stored. -/
def sysW : SysState := { blob := blobEmpty, db := dbW }

/-- Processor output: derived version 1, 3 models, canonicalized body
distinct from the raw request body. -/
def infoW : SpecInfo :=
  { version := "1", model_count := 3, title := none, description := none
    spec_str := "canonical-doc" }

/-- Processor output deriving version 2 (for the mismatch scenario). -/
def infoV2 : SpecInfo :=
  { version := "2", model_count := 3, title := none, description := none
    spec_str := "canonical-doc" }

/-- A request whose body decodes and validates, both stores healthy. -/
def envW : PutEnv :=
  { decodeResult := Except.ok ("raw-doc"), processResult := Except.ok infoW
    blobOk := true, dbOk := true, now := 7 }

/-- A request whose document derives version 2. -/
def envMismatch : PutEnv :=
  { decodeResult := Except.ok ("raw-doc"), processResult := Except.ok infoV2
    blobOk := true, dbOk := true, now := 7 }

/-- A request where the blob-store write fails. -/
def envBlobFail : PutEnv :=
  { decodeResult := Except.ok ("raw-doc"), processResult := Except.ok infoW
    blobOk := false, dbOk := true, now := 7 }

/-- A request whose raw body is not valid UTF-8. -/
def envDecodeFail : PutEnv :=
  { decodeResult := Except.error ("invalid continuation byte")
    processResult := Except.error ("unreachable"), blobOk := true
    dbOk := true, now := 7 }

/-! ## Helper lemmas -/

/-- The result flag of the free-tier check is exactly the comparison
`current + proposed > ceiling`. -/
theorem check_result_iff (cfg : Config) (st : DbState) (sub : String)
    (q : Nat) :
    (Database.check_would_exceed_free_tier cfg st sub q).result = true ↔
      Database.count_customer_models st sub + q >
        cfg.free_tier_model_count := by
  unfold Database.check_would_exceed_free_tier
  by_cases h : Database.count_customer_models st sub + q >
      cfg.free_tier_model_count
  · simp [h]
  · simp [h]

/-- The sorted version list is empty exactly when no version is stored. -/
theorem list_versions_eq_nil_iff (st : DbState) (sub id_ : String) :
    Spec.list_versions st sub id_ = [] ↔ specVersionsFor st sub id_ = [] := by
  unfold Spec.list_versions
  constructor
  · intro h
    have hp := List.perm_insertionSort moreRecent (specVersionsFor st sub id_)
    rw [h] at hp
    exact hp.symm.eq_nil
  · intro h
    rw [h]
    rfl

/-! ## Claims -/

/-- C2: `check_would_exceed_free_tier` reports that the free tier would be
exceeded iff the customer's current stored model count plus the proposed
count is strictly greater than the configured ceiling; a write bringing the
total exactly to the ceiling is allowed. -/
theorem check_would_exceed_free_tier_iff (cfg : Config) (st : DbState)
    (sub : String) (model_count : Nat) :
    ((Database.check_would_exceed_free_tier cfg st sub model_count).result =
        true ↔
      Database.count_customer_models st sub + model_count >
        cfg.free_tier_model_count) ∧
    (Database.count_customer_models st sub + model_count =
        cfg.free_tier_model_count →
      (Database.check_would_exceed_free_tier cfg st sub model_count).result =
        false) := by
  refine ⟨check_result_iff cfg st sub model_count, fun h => ?_⟩
  unfold Database.check_would_exceed_free_tier
  simp [h]

/-- C2 witness: alice has 3 stored models, ceiling 5; proposing 2 more lands
exactly on the ceiling and is allowed. -/
theorem check_would_exceed_free_tier_iff_witness :
    (Database.check_would_exceed_free_tier cfgW dbW ("alice") 2).result =
      false :=
  (check_would_exceed_free_tier_iff cfgW dbW ("alice") 2).2 (by decide)

/-- C6: quota monotonicity: for fixed count and ceiling a rejected proposed
count stays rejected at any larger proposed count, and for fixed count and
proposed count lowering the ceiling never turns a rejection into an
acceptance. -/
theorem check_would_exceed_free_tier_monotone (cfg cfg2 : Config)
    (st : DbState) (sub : String) (p p2 : Nat) :
    (p ≤ p2 →
      (Database.check_would_exceed_free_tier cfg st sub p).result = true →
      (Database.check_would_exceed_free_tier cfg st sub p2).result = true) ∧
    (cfg2.free_tier_model_count ≤ cfg.free_tier_model_count →
      (Database.check_would_exceed_free_tier cfg st sub p).result = true →
      (Database.check_would_exceed_free_tier cfg2 st sub p).result = true) := by
  constructor
  · intro hle h
    rw [check_result_iff] at h ⊢
    exact Nat.lt_of_lt_of_le h (Nat.add_le_add_left hle _)
  · intro hle h
    rw [check_result_iff] at h ⊢
    exact Nat.lt_of_le_of_lt hle h

/-- C6 witness: with 3 stored models and ceiling 5, proposing 3 is rejected,
hence proposing 4 is rejected as well. -/
theorem check_would_exceed_free_tier_monotone_witness :
    (Database.check_would_exceed_free_tier cfgW dbW ("alice") 4).result =
      true :=
  (check_would_exceed_free_tier_monotone cfgW cfgW dbW ("alice") 3 4).1
    (by decide) (by decide)

/-- C4 counterexample: at a concrete accepted write (empty store, 0 proposed
models) the decision returned by `check_would_exceed_free_tier` carries no
reason string at all (reason is None), refuting that every returned decision
carries one. -/
theorem check_reason_counterexample :
    (Database.check_would_exceed_free_tier cfgW dbEmpty ("alice") 0).reason =
      none ∧
    (Database.check_would_exceed_free_tier cfgW dbEmpty ("alice") 0).result =
      false := by
  constructor
  · rfl
  · rfl

/-- C4 amended: every rejecting decision (result True) carries a reason
string embedding the configured ceiling, the current stored count, and the
proposed increment, recomputed from the current count; accepting decisions
carry reason None. -/
theorem check_reason_embeds (cfg : Config) (st : DbState) (sub : String)
    (model_count : Nat) :
    ((Database.check_would_exceed_free_tier cfg st sub model_count).result =
        true →
      (Database.check_would_exceed_free_tier cfg st sub model_count).reason =
        some ((("with this spec the maximum number of ") ++
          toString cfg.free_tier_model_count ++
          (" models for the free tier would be exceeded, ") ++
          ("current models count: ") ++
          toString (Database.count_customer_models st sub) ++
          (", models in this spec: ") ++ toString model_count))) ∧
    ((Database.check_would_exceed_free_tier cfg st sub model_count).result =
        false →
      (Database.check_would_exceed_free_tier cfg st sub model_count).reason =
        none) := by
  unfold Database.check_would_exceed_free_tier
  by_cases h : Database.count_customer_models st sub + model_count >
      cfg.free_tier_model_count
  · simp [h]
  · simp [h]

/-- C4 amended witness: the rejection of 4 more models on top of 3 stored
carries the reason string interpolating ceiling 5, current 3, proposed 4. -/
theorem check_reason_embeds_witness :
    (Database.check_would_exceed_free_tier cfgW dbW ("alice") 4).reason =
      some ((("with this spec the maximum number of ") ++
        toString cfgW.free_tier_model_count ++
        (" models for the free tier would be exceeded, ") ++
        ("current models count: ") ++
        toString (Database.count_customer_models dbW ("alice")) ++
        (", models in this spec: ") ++ toString 4)) :=
  (check_reason_embeds cfgW dbW ("alice") 4).1 (by decide)

/-- C1: when the caller-declared version differs from the version derived by
the spec processor, `put` returns a 400 response naming both versions, the
system state is unchanged (neither store is touched) and no store event is
emitted. -/
theorem put_version_mismatch (cfg : Config) (env : PutEnv)
    (spec_id version user : String) (st : SysState) (s : String)
    (info : SpecInfo) (hdec : env.decodeResult = Except.ok s)
    (hproc : env.processResult = Except.ok info)
    (hne : version ≠ info.version) :
    put cfg env spec_id version user st =
      (Except.ok
        { data := some ((("the requested version ") ++ version ++
            (" does not match the version of the spec ") ++ info.version))
          status := 400, mimetype := some ("text/plain") }, st, []) := by
  simp [put, hdec, hproc, hne]

/-- C1 witness: a PUT of version 1 whose document derives version 2 returns
400 naming both versions and leaves the empty system state untouched. -/
theorem put_version_mismatch_witness :
    put cfgW envMismatch ("s1") ("1") ("alice") sysEmpty =
      (Except.ok
        { data := some ((("the requested version ") ++ ("1") ++
            (" does not match the version of the spec ") ++ infoV2.version))
          status := 400, mimetype := some ("text/plain") }, sysEmpty, []) :=
  put_version_mismatch cfgW envMismatch ("s1") ("1") ("alice") sysEmpty
    ("raw-doc") infoV2 rfl rfl (by decide)

/-- C5: when the free-tier check reports the quota would be exceeded, `put`
returns status 402 (distinct from the 400 validation and version-mismatch
statuses and the 500 storage statuses) with the decision's reason as the
response body, the state is unchanged and no store event is emitted. -/
theorem put_quota_exceeded (cfg : Config) (env : PutEnv)
    (spec_id version user : String) (st : SysState) (s : String)
    (info : SpecInfo) (hdec : env.decodeResult = Except.ok s)
    (hproc : env.processResult = Except.ok info)
    (hver : version = info.version)
    (hq : (Database.check_would_exceed_free_tier cfg st.db user
      info.model_count).result = true) :
    put cfg env spec_id version user st =
      (Except.ok
        { data := (Database.check_would_exceed_free_tier cfg st.db user
            info.model_count).reason
          status := 402, mimetype := some ("text/plain") }, st, []) := by
  subst hver
  simp [put, hdec, hproc, hq]

/-- C5 witness: with 3 models already stored under ceiling 5, a valid PUT of
a 3-model spec is rejected with 402, the reason as body, and no mutation. -/
theorem put_quota_exceeded_witness :
    put cfgW envW ("s1") ("1") ("alice") sysW =
      (Except.ok
        { data := (Database.check_would_exceed_free_tier cfgW sysW.db
            ("alice") infoW.model_count).reason
          status := 402, mimetype := some ("text/plain") }, sysW, []) :=
  put_quota_exceeded cfgW envW ("s1") ("1") ("alice") sysW ("raw-doc") infoW
    rfl rfl rfl (by decide)

/-- C8: on a successful `put` (status 204) the body written to the blob
store is the canonicalized document produced by the spec processor (its
`spec_str`, not the raw request body), the blob and metadata writes are
keyed by the same (user, spec_id, derived-version) tuple, and looking the
key up in the resulting blob store yields the canonicalized body. -/
theorem put_success_writes (cfg : Config) (env : PutEnv)
    (spec_id version user : String) (st : SysState) (s : String)
    (info : SpecInfo) (hdec : env.decodeResult = Except.ok s)
    (hproc : env.processResult = Except.ok info)
    (hver : version = info.version)
    (hq : (Database.check_would_exceed_free_tier cfg st.db user
      info.model_count).result = false)
    (hb : env.blobOk = true) (hd : env.dbOk = true) :
    put cfg env spec_id version user st =
      (Except.ok { data := none, status := 204, mimetype := none },
        { blob := st.blob.create_update_spec (user, spec_id, info.version)
            info.spec_str
          db := Database.create_update_spec st.db user spec_id info.version
            info.model_count info.title info.description env.now },
        [StoreEvent.blobWrite user spec_id info.version info.spec_str,
         StoreEvent.metaWrite user spec_id info.version info.model_count]) ∧
    (st.blob.create_update_spec (user, spec_id, info.version)
        info.spec_str).get_spec (user, spec_id, info.version) =
      some info.spec_str := by
  subst hver
  constructor
  · simp [put, hdec, hproc, hq, hb, hd]
  · simp [BlobStore.create_update_spec, BlobStore.get_spec]

/-- C8 witness: a successful PUT against the empty system writes the
canonicalized body (distinct from the raw body) under the derived version,
and the metadata write uses the same key tuple. -/
theorem put_success_writes_witness :
    put cfgW envW ("s1") ("1") ("alice") sysEmpty =
      (Except.ok { data := none, status := 204, mimetype := none },
        { blob := sysEmpty.blob.create_update_spec
            (("alice"), ("s1"), infoW.version) infoW.spec_str
          db := Database.create_update_spec sysEmpty.db ("alice") ("s1")
            infoW.version infoW.model_count infoW.title infoW.description
            envW.now },
        [StoreEvent.blobWrite ("alice") ("s1") infoW.version infoW.spec_str,
         StoreEvent.metaWrite ("alice") ("s1") infoW.version
          infoW.model_count]) ∧
    (sysEmpty.blob.create_update_spec (("alice"), ("s1"), infoW.version)
        infoW.spec_str).get_spec (("alice"), ("s1"), infoW.version) =
      some infoW.spec_str :=
  put_success_writes cfgW envW ("s1") ("1") ("alice") sysEmpty ("raw-doc")
    infoW rfl rfl rfl (by decide) rfl rfl

/-- C9: `put` decodes the body and runs the processor before any store
access, but only LoadSpecError is mapped to a 400 validation response; a
body that fails to decode makes `put` terminate with an uncaught exception
rather than any response, and even then neither store is touched and no
store event is emitted. -/
theorem put_decode_uncaught (cfg : Config) (env env2 : PutEnv)
    (spec_id version user : String) (st st2 : SysState)
    (msg s exc : String) :
    (env.decodeResult = Except.error msg →
      put cfg env spec_id version user st =
        (Except.error (PyError.UnicodeDecodeError msg), st, [])) ∧
    (env2.decodeResult = Except.ok s →
      env2.processResult = Except.error exc →
      put cfg env2 spec_id version user st2 =
        (Except.ok
          { data := some (("the spec is not valid, ") ++ exc)
            status := 400, mimetype := some ("text/plain") }, st2, [])) := by
  constructor
  · intro h
    simp [put, h]
  · intro h1 h2
    simp [put, h1, h2]

/-- C9 witness: a body that is not valid UTF-8 escapes `put` as an uncaught
UnicodeDecodeError with the state untouched and no store event. -/
theorem put_decode_uncaught_witness :
    put cfgW envDecodeFail ("s1") ("1") ("alice") sysW =
      (Except.error
        (PyError.UnicodeDecodeError ("invalid continuation byte")), sysW,
        []) :=
  (put_decode_uncaught cfgW envDecodeFail envDecodeFail ("s1") ("1")
    ("alice") sysW sysW ("invalid continuation byte") ("x") ("x")).1 rfl

/-- C3: store operations in `put` happen in a fixed order and never early:
a non-empty store-event trace implies decoding, validation, the
version-match check and the quota check all passed; a metadata write only
ever occurs after a successful blob write of the same request, as the second
of exactly two events; and a blob-write failure alone leaves the whole state
(both stores) untouched with no event emitted. -/
theorem put_store_order (cfg : Config) (env : PutEnv)
    (spec_id version user : String) (st : SysState) :
    ((put cfg env spec_id version user st).2.2 ≠ [] →
      (∃ s, env.decodeResult = Except.ok s) ∧
      ∃ info, env.processResult = Except.ok info ∧ version = info.version ∧
        (Database.check_would_exceed_free_tier cfg st.db user
          info.model_count).result = false) ∧
    (∀ u sid v mc,
      StoreEvent.metaWrite u sid v mc ∈
          (put cfg env spec_id version user st).2.2 →
      env.blobOk = true ∧
      ∃ ss, (put cfg env spec_id version user st).2.2 =
        [StoreEvent.blobWrite u sid v ss,
         StoreEvent.metaWrite u sid v mc]) ∧
    (env.blobOk = false →
      (put cfg env spec_id version user st).2.1 = st ∧
      (put cfg env spec_id version user st).2.2 = []) := by
  rcases hdec : env.decodeResult with msg | s
  · simp [put, hdec]
  rcases hproc : env.processResult with exc | info
  · simp [put, hdec, hproc]
  by_cases hver : version = info.version
  · subst hver
    by_cases hq : (Database.check_would_exceed_free_tier cfg st.db user
        info.model_count).result = true
    · simp [put, hdec, hproc, hq]
    · rw [Bool.not_eq_true] at hq
      cases hb : env.blobOk with
      | false => simp [put, hdec, hproc, hq, hb]
      | true =>
        cases hd : env.dbOk with
        | false =>
          refine ⟨fun _ => ⟨⟨s, rfl⟩, info, rfl, rfl, hq⟩, ?_, ?_⟩
          · intro u sid v mc hmem
            simp [put, hdec, hproc, hq, hb, hd] at hmem
          · intro h
            simp at h
        | true =>
          refine ⟨fun _ => ⟨⟨s, rfl⟩, info, rfl, rfl, hq⟩, ?_, ?_⟩
          · intro u sid v mc hmem
            simp [put, hdec, hproc, hq, hb, hd] at hmem
            obtain ⟨h1, h2, h3, h4⟩ := hmem
            subst h1
            subst h2
            subst h3
            subst h4
            refine ⟨rfl, info.spec_str, ?_⟩
            simp [put, hdec, hproc, hq, hb, hd]
          · intro h
            simp at h
  · simp [put, hdec, hproc, hver]

/-- C3 witness: a request failing only at the blob write leaves the initial
system state intact and emits no store event. -/
theorem put_store_order_witness :
    (put cfgW envBlobFail ("s1") ("1") ("alice") sysEmpty).2.1 = sysEmpty ∧
    (put cfgW envBlobFail ("s1") ("1") ("alice") sysEmpty).2.2 = [] :=
  (put_store_order cfgW envBlobFail ("s1") ("1") ("alice") sysEmpty).2.2 rfl

/-- C7: `list_spec_versions` fails with NotFoundError iff the spec id has
zero stored versions for that customer, and never with StorageError;
otherwise it returns exactly the stored versions, most-recent-first; and
the versions endpoint maps a not-found failure to 404 and a storage fault
to 500, so the two are distinguishable by callers. -/
theorem list_spec_versions_spec (st : DbState) (sub id_ : String) :
    (Database.list_spec_versions st sub id_ =
        Except.error (DbError.NotFoundError
          (("could not find spec id ") ++ id_)) ↔
      specVersionsFor st sub id_ = []) ∧
    (∀ l, Database.list_spec_versions st sub id_ = Except.ok l →
      l.Perm (specVersionsFor st sub id_) ∧ l.Sorted moreRecent) ∧
    (∀ m, Database.list_spec_versions st sub id_ ≠
      Except.error (DbError.StorageError m)) ∧
    (∀ m,
      (list_ id_ (Except.error
        (StorageExc.ObjectNotFoundError m))).status = 404 ∧
      (list_ id_ (Except.error (StorageExc.StorageFault m))).status = 500) := by
  by_cases h : (Spec.list_versions st sub id_).isEmpty
  · have hnil : Spec.list_versions st sub id_ = [] := List.isEmpty_iff.mp h
    refine ⟨?_, ?_, ?_, fun m => ⟨rfl, rfl⟩⟩
    · constructor
      · intro _
        exact (list_versions_eq_nil_iff st sub id_).mp hnil
      · intro _
        simp [Database.list_spec_versions, h]
    · intro l hl
      simp [Database.list_spec_versions, h] at hl
    · intro m
      simp [Database.list_spec_versions, h]
  · refine ⟨?_, ?_, ?_, fun m => ⟨rfl, rfl⟩⟩
    · constructor
      · intro hcontra
        simp [Database.list_spec_versions, h] at hcontra
      · intro hfil
        exact absurd
          (List.isEmpty_iff.mpr ((list_versions_eq_nil_iff st sub id_).mpr
            hfil)) h
    · intro l hl
      simp [Database.list_spec_versions, h] at hl
      subst hl
      constructor
      · exact List.perm_insertionSort moreRecent (specVersionsFor st sub id_)
      · exact List.sorted_insertionSort moreRecent (specVersionsFor st sub id_)
    · intro m
      simp [Database.list_spec_versions, h]

/-- C7 witness: with two versions of s1 stored older-first, the listing
succeeds and returns them most-recent-first as a permutation of the stored
records. -/
theorem list_spec_versions_spec_witness :
    List.Perm [specRecW2, specRecW1]
      (specVersionsFor dbW2 ("alice") ("s1")) ∧
    List.Sorted moreRecent [specRecW2, specRecW1] :=
  (list_spec_versions_spec dbW2 ("alice") ("s1")).2.1
    [specRecW2, specRecW1] rfl

/-- C10: credential lookups signal absence by value: `get_credentials` and
`get_user` return None exactly when no matching stored record exists,
whereas `get_latest_spec_version` and `list_spec_versions` fail with
NotFoundError when the spec id has no stored versions. -/
theorem absence_by_value (st : DbState) (sub id_ pk : String) :
    (Database.get_credentials st sub id_ = none ↔
      ∀ r ∈ st.credentials, ¬(r.sub = sub ∧ r.id_ = id_)) ∧
    (Database.get_user st pk = none ↔
      ∀ r ∈ st.credentials, r.public_key ≠ pk) ∧
    (specVersionsFor st sub id_ = [] →
      Database.get_latest_spec_version st sub id_ =
        Except.error (DbError.NotFoundError (("spec not found: ") ++ id_)) ∧
      Database.list_spec_versions st sub id_ =
        Except.error (DbError.NotFoundError
          (("could not find spec id ") ++ id_))) := by
  refine ⟨?_, ?_, ?_⟩
  · simp [Database.get_credentials, Credentials.get_item, List.find?_eq_none]
  · simp [Database.get_user, Credentials.get_user, List.find?_eq_none]
  · intro h
    have hnil : Spec.list_versions st sub id_ = [] :=
      (list_versions_eq_nil_iff st sub id_).mpr h
    constructor
    · simp [Database.get_latest_spec_version, Spec.get_latest_version, hnil]
    · simp [Database.list_spec_versions, hnil]

/-- C10 witness: on the empty store the credential lookups return None while
the spec-version lookups fail with NotFoundError. -/
theorem absence_by_value_witness :
    Database.get_credentials dbEmpty ("alice") ("c1") = none ∧
    Database.get_user dbEmpty ("pk1") = none ∧
    Database.get_latest_spec_version dbEmpty ("alice") ("s1") =
      Except.error (DbError.NotFoundError (("spec not found: ") ++ ("s1"))) ∧
    Database.list_spec_versions dbEmpty ("alice") ("s1") =
      Except.error (DbError.NotFoundError
        (("could not find spec id ") ++ ("s1"))) :=
  ⟨(absence_by_value dbEmpty ("alice") ("c1") ("pk1")).1.mpr
      (by simp [dbEmpty]),
   (absence_by_value dbEmpty ("alice") ("c1") ("pk1")).2.1.mpr
      (by simp [dbEmpty]),
   ((absence_by_value dbEmpty ("alice") ("s1") ("pk1")).2.2 rfl).1,
   ((absence_by_value dbEmpty ("alice") ("s1") ("pk1")).2.2 rfl).2⟩

end OpenAlchemy
